import Mathlib

/-!
Verification of the SentinelAi autonomous DDoS detection-and-mitigation core.

Shallow embedding of the control-flow relevant parts of:
- `5GNetwork/model/app/mitigation_engine.py` (threshold ladder, active mitigations),
- `model/mitigation/mitigation_manager.py` (slice-priority attack handling),
- `model/app/ml_detection.py` (ensemble scoring and default error response),
- `model/app/network_slice_manager.py` (slice health, isolation, restoration),
- `model/app/flow_capture.py` and `5GNetwork/model/app/flow_capture.py`
  (flow feature extraction and the idle-flow sweep).

Timestamps, confidences and scores are modelled as rationals; Python dicts
keyed by strings become association lists with insert-or-replace update;
the external SDN actuator becomes an explicit trace of requested calls.
-/

namespace SentinelAi

/-- Threat level attached to a detection result (`'LOW' | 'MEDIUM' | 'HIGH'`
strings in the source). -/
inductive ThreatLevel
  | LOW
  | MEDIUM
  | HIGH
  deriving DecidableEq, Repr

/-! ### Mitigation engine (`5GNetwork/model/app/mitigation_engine.py`) -/

/-- `MitigationEngine.thresholds['block_threshold']`. -/
def blockThreshold : ℚ := 9/10

/-- `MitigationEngine.thresholds['rate_limit_threshold']`. -/
def rateLimitThreshold : ℚ := 7/10

/-- `MitigationEngine.thresholds['honeypot_threshold']`. -/
def honeypotThreshold : ℚ := 1/2

/-- The slice types for which `isolate_network_slice` has an isolation rule
(the keys of its `isolation_rules` dict). -/
def isolationRuleSlices : List String := ["eMBB", "URLLC", "mMTC"]

/-- `MitigationEngine.isolate_network_slice`: returns `True` exactly when the
slice type has an entry in `isolation_rules`. -/
def isolateNetworkSlice (sliceType : String) : Bool :=
  isolationRuleSlices.contains sliceType

/-- The `mitigation_actions` list built by `execute_mitigation`, given the
detection confidence, the threat level, the flow's network slice, and the
success of each actuator call (`block_ip` / `apply_rate_limiting` /
`redirect_to_honeypot` return values).  The source appends the action tag
only when the corresponding call succeeded, and the three per-source
branches are an `if`/`elif` chain on the same confidence value. -/
def mitigationActions (confidence : ℚ) (threat : ThreatLevel) (sliceType : String)
    (blockOk rateOk honeyOk : Bool) : List String :=
  (if blockThreshold ≤ confidence ∧ threat = .HIGH then
      (if blockOk then ["IP_BLOCKED"] else [])
    else if rateLimitThreshold ≤ confidence then
      (if rateOk then ["RATE_LIMITED"] else [])
    else if honeypotThreshold ≤ confidence then
      (if honeyOk then ["REDIRECTED_TO_HONEYPOT"] else [])
    else [])
  ++ (if threat = .HIGH ∧ isolateNetworkSlice sliceType then ["SLICE_ISOLATED"] else [])

/-- The per-source portion of the mitigation actions: everything except the
additional `SLICE_ISOLATED` entry, which targets a slice, not a source. -/
def perSourceActions (confidence : ℚ) (threat : ThreatLevel) (sliceType : String)
    (blockOk rateOk honeyOk : Bool) : List String :=
  (mitigationActions confidence threat sliceType blockOk rateOk honeyOk).filter
    (fun a => a ≠ "SLICE_ISOLATED")

/-- A call requested from the SDN actuator by the mitigation engine. -/
inductive ActuatorCall
  | blockIp (ip : String)
  | rateLimitFlow (ip : String)
  | redirectToHoneypot (ip : String)
  deriving DecidableEq, Repr

/-- The actuator calls issued by one `execute_mitigation` invocation for a
source address: the `if`/`elif` chain issues exactly one call when a
threshold is met, and none otherwise.  The call is issued regardless of the
actuator's outcome. -/
def actionCalls (confidence : ℚ) (threat : ThreatLevel) (ip : String) : List ActuatorCall :=
  if blockThreshold ≤ confidence ∧ threat = .HIGH then [.blockIp ip]
  else if rateLimitThreshold ≤ confidence then [.rateLimitFlow ip]
  else if honeypotThreshold ≤ confidence then [.redirectToHoneypot ip]
  else []

/-- A detection verdict routed to `execute_mitigation`, with the flow's
source address. -/
structure Verdict where
  srcIp : String
  confidence : ℚ
  threat : ThreatLevel
  deriving DecidableEq, Repr

/-- The mitigation record stored in `active_mitigations[src_ip]`. -/
structure MitigationRecord where
  srcIp : String
  confidence : ℚ
  threat : ThreatLevel
  deriving DecidableEq, Repr

/-- Insert-or-replace update of an association list, the semantics of a
Python dict assignment `d[k] = v`. -/
def dictInsert {α : Type} (l : List (String × α)) (k : String) (v : α) :
    List (String × α) :=
  match l with
  | [] => [(k, v)]
  | (k', v') :: rest =>
      if k' = k then (k, v) :: rest else (k', v') :: dictInsert rest k v

/-- Engine state: the `active_mitigations` dict keyed by source IP. -/
structure EngineState where
  activeMitigations : List (String × MitigationRecord)
  deriving Repr

/-- One `execute_mitigation` step: issues the actuator calls selected by the
threshold chain and unconditionally stores the record under
`active_mitigations[src_ip]` (the source does this for every verdict, even a
non-qualifying one). -/
def executeMitigation (s : EngineState) (v : Verdict) :
    EngineState × List ActuatorCall :=
  (⟨dictInsert s.activeMitigations v.srcIp ⟨v.srcIp, v.confidence, v.threat⟩⟩,
   actionCalls v.confidence v.threat v.srcIp)

/-- Run a sequence of verdicts through the engine from a given state,
accumulating the actuator-call trace. -/
def runVerdicts (s : EngineState) : List Verdict → EngineState × List ActuatorCall
  | [] => (s, [])
  | v :: vs =>
      let step := executeMitigation s v
      let rest := runVerdicts step.1 vs
      (rest.1, step.2 ++ rest.2)

/-- The empty engine state. -/
def initialEngineState : EngineState := ⟨[]⟩

/-- The action ladder exactly as the specification states it: confidence ≥ 0.9
and HIGH threat gives BLOCK, otherwise confidence ≥ 0.7 gives RATE_LIMIT,
otherwise confidence ≥ 0.5 gives REDIRECT_HONEYPOT, otherwise nothing. -/
def specLadder (confidence : ℚ) (threat : ThreatLevel) : Option String :=
  if 9/10 ≤ confidence ∧ threat = .HIGH then some "IP_BLOCKED"
  else if 7/10 ≤ confidence then some "RATE_LIMITED"
  else if 1/2 ≤ confidence then some "REDIRECTED_TO_HONEYPOT"
  else none

/-! #### Helper lemmas for the mitigation engine -/

theorem dictInsert_mem_keys {α : Type} (l : List (String × α)) (k : String) (v : α)
    (k' : String) :
    k' ∈ (dictInsert l k v).map Prod.fst ↔ k' ∈ l.map Prod.fst ∨ k' = k := by
  induction l with
  | nil => simp [dictInsert, eq_comm]
  | cons p rest ih =>
      obtain ⟨kp, vp⟩ := p
      by_cases hp : kp = k
      · subst hp
        simp [dictInsert, eq_comm]
        tauto
      · simp only [dictInsert, if_neg hp, List.map_cons, List.mem_cons, ih]
        tauto

theorem dictInsert_keys_nodup {α : Type} (l : List (String × α)) (k : String) (v : α)
    (h : (l.map Prod.fst).Nodup) : ((dictInsert l k v).map Prod.fst).Nodup := by
  induction l with
  | nil => simp [dictInsert]
  | cons p rest ih =>
      obtain ⟨kp, vp⟩ := p
      simp only [List.map_cons, List.nodup_cons] at h
      by_cases hp : kp = k
      · subst hp
        simpa [dictInsert, List.nodup_cons] using h
      · simp only [dictInsert, if_neg hp, List.map_cons, List.nodup_cons]
        refine ⟨?_, ih h.2⟩
        rw [dictInsert_mem_keys]
        rintro (h2 | h2)
        · exact h.1 h2
        · exact hp h2

theorem runVerdicts_calls_append (s : EngineState) (vs : List Verdict) (v : Verdict) :
    (runVerdicts s (vs ++ [v])).2 =
      (runVerdicts s vs).2 ++
        actionCalls v.confidence v.threat v.srcIp := by
  induction vs generalizing s with
  | nil => simp [runVerdicts, executeMitigation]
  | cons w ws ih => simp [runVerdicts, ih, List.append_assoc]

theorem runVerdicts_state_nodup (s : EngineState) (vs : List Verdict)
    (h : (s.activeMitigations.map Prod.fst).Nodup) :
    (((runVerdicts s vs).1.activeMitigations).map Prod.fst).Nodup := by
  induction vs generalizing s with
  | nil => simpa [runVerdicts]
  | cons w ws ih =>
      simp only [runVerdicts]
      exact ih _ (dictInsert_keys_nodup _ _ _ h)

/-! ### Mitigation manager (`model/mitigation/mitigation_manager.py`) -/

/-- `DEFAULT_CONFIG['mitigation_threshold']`. -/
def mitigationThreshold : ℚ := 7/10

/-- `DEFAULT_CONFIG['rate_limit']` (packets per second). -/
def defaultRateLimit : ℕ := 1000

/-- `DEFAULT_CONFIG['slice_config']`: slice name to priority. -/
def sliceConfig : List (String × ℕ) :=
  [("high_priority", 1), ("medium_priority", 2), ("low_priority", 3), ("default", 2)]

/-- `self.slice_priorities.get(slice_id, self.slice_priorities['default'])`. -/
def slicePriority (sliceId : String) : ℕ :=
  match sliceConfig.lookup sliceId with
  | some p => p
  | none => 2

/-- A flow as consumed by `MitigationManager.handle_attack`: the source IP
may be missing (`flow.get('src_ip')`) and the slice id defaults to
`'default'` upstream of the priority lookup. -/
structure ManagerFlow where
  srcIp : Option String
  sliceId : String
  deriving DecidableEq, Repr

/-- The decision returned by `handle_attack`. -/
inductive ManagerDecision
  | monitor
  | error
  | block (ip : String)
  | rateLimit (ip : String) (rate : ℕ)
  deriving DecidableEq, Repr

/-- `MitigationManager.handle_attack`: below the mitigation threshold it only
monitors; without a source IP it errors; otherwise high confidence or a
priority-1 slice blocks, medium confidence or a priority-2 slice rate-limits
at half rate, and everything else rate-limits at the full default rate. -/
def handleAttack (flow : ManagerFlow) (confidence : ℚ) : ManagerDecision :=
  if confidence < mitigationThreshold then .monitor
  else
    match flow.srcIp with
    | none => .error
    | some ip =>
        let priority := slicePriority flow.sliceId
        if 9/10 < confidence ∨ priority = 1 then .block ip
        else if 7/10 < confidence ∨ priority = 2 then .rateLimit ip (defaultRateLimit / 2)
        else .rateLimit ip defaultRateLimit

/-! ### Claim theorems for the mitigation controller -/

/-- C3: for every verdict and flow context, `execute_mitigation` fires at most
one per-source action, and (with a successful actuator) the fired action is
exactly the one chosen by the ordered ladder: confidence ≥ 0.9 and
threatLevel HIGH → BLOCK; otherwise confidence ≥ 0.7 → RATE_LIMIT; otherwise
confidence ≥ 0.5 → REDIRECT_HONEYPOT; otherwise no action. -/
theorem mitigation_ladder_single_action (c : ℚ) (t : ThreatLevel) (st : String)
    (blockOk rateOk honeyOk : Bool) :
    (perSourceActions c t st blockOk rateOk honeyOk).length ≤ 1 ∧
    perSourceActions c t st true true true = (specLadder c t).toList := by
  constructor
  · unfold perSourceActions mitigationActions
    split_ifs <;> simp [List.filter]
  · unfold perSourceActions mitigationActions specLadder
      blockThreshold rateLimitThreshold honeypotThreshold
    split_ifs <;> simp_all [List.filter]

/-- C1 counterexample: two identical qualifying verdicts (confidence 0.95,
HIGH) for the same source address issue two `block_ip` actuator calls — the
second verdict for the already-mitigated address does not merely extend the
record's expiry, it repeats the actuator call. -/
theorem duplicate_actuator_call_on_renewal :
    (runVerdicts initialEngineState
        [⟨"10.0.0.1", 19/20, .HIGH⟩, ⟨"10.0.0.1", 19/20, .HIGH⟩]).2 =
      [.blockIp "10.0.0.1", .blockIp "10.0.0.1"] ∧
    blockThreshold ≤ (19/20 : ℚ) := by
  constructor
  · simp [runVerdicts, executeMitigation, actionCalls, initialEngineState,
      blockThreshold, rateLimitThreshold, honeypotThreshold]
    norm_num
  · unfold blockThreshold; norm_num

/-- C1 amended: for every sequence of verdicts, the engine keeps at most one
`active_mitigations` record per source address (the dict assignment replaces
the previous record), but a new qualifying verdict for an already-mitigated
address issues a fresh actuator call rather than only extending the record. -/
theorem at_most_one_record_fresh_calls (vs : List Verdict) (v : Verdict) :
    (((runVerdicts initialEngineState vs).1.activeMitigations).map Prod.fst).Nodup ∧
    (runVerdicts initialEngineState (vs ++ [v])).2 =
      (runVerdicts initialEngineState vs).2 ++
        actionCalls v.confidence v.threat v.srcIp :=
  ⟨runVerdicts_state_nodup _ _ (by simp [initialEngineState]),
   runVerdicts_calls_append _ _ _⟩

/-- C10: in `handle_attack`, a flow whose slice id has configured priority 1
is blocked whenever the confidence reaches the mitigation threshold (0.7),
even though that is below the 0.9 level that otherwise gates blocking. -/
theorem priority_slice_blocks_at_threshold (flow : ManagerFlow) (confidence : ℚ)
    (ip : String) (hp : slicePriority flow.sliceId = 1)
    (hc : mitigationThreshold ≤ confidence) (hip : flow.srcIp = some ip) :
    handleAttack flow confidence = .block ip := by
  unfold handleAttack
  rw [if_neg (not_lt.mpr hc), hip]
  simp [hp]

/-- C10 witness: a flow on the `high_priority` slice with confidence exactly
0.7 is blocked. -/
theorem priority_slice_blocks_at_threshold_witness :
    handleAttack ⟨some "10.0.0.9", "high_priority"⟩ (7/10) = .block "10.0.0.9" :=
  priority_slice_blocks_at_threshold ⟨some "10.0.0.9", "high_priority"⟩ (7/10)
    "10.0.0.9" (by simp [slicePriority, sliceConfig])
    (by unfold mitigationThreshold; norm_num) rfl

/-! ### Flow capture (`model/app/flow_capture.py`, identical in
`5GNetwork/model/app/flow_capture.py`) -/

/-- The idle timeout of the periodic sweep: `timedelta(minutes=10)`. -/
def idleTimeout : ℚ := 600

/-- A flow-table entry as read by `cleanup_old_flows`: `last_seen` is `None`
until the flow's first packet. -/
structure CaptureFlow where
  lastSeen : Option ℚ
  deriving DecidableEq, Repr

/-- The sweep's removal condition `flow_data['last_seen'] and
flow_data['last_seen'] < cutoff_time` with `cutoff_time = now - 10 min`. -/
def flowExpired (now : ℚ) (f : CaptureFlow) : Bool :=
  match f.lastSeen with
  | none => false
  | some t => t < now - idleTimeout

/-- `cleanup_old_flows`: collects the expired keys and deletes them, which
keeps exactly the non-expired entries. -/
def cleanupOldFlows (now : ℚ) (flows : List (String × CaptureFlow)) :
    List (String × CaptureFlow) :=
  flows.filter (fun p => !flowExpired now p.2)

/-- `extract_flow_features`' duration computation: the true difference
`last_seen - start_time`, replaced by 1 ms only when that difference is
non-positive. -/
def pythonDuration (startTime lastSeen : ℚ) : ℚ :=
  if lastSeen - startTime ≤ 0 then 1/1000 else lastSeen - startTime

/-- The rate features derived by `extract_flow_features`. -/
structure FlowRates where
  duration : ℚ
  packetsPerSecond : ℚ
  bytesPerSecond : ℚ
  deriving DecidableEq, Repr

/-- `extract_flow_features`, restricted to the duration/rate features: returns
`None` when the flow has no packets, otherwise divides the counters by the
epsilon-protected duration. -/
def extractFlowFeatures (packets : ℕ) (bytes : ℚ) (startTime lastSeen : ℚ) :
    Option FlowRates :=
  if packets = 0 then none
  else
    let duration := pythonDuration startTime lastSeen
    some ⟨duration, (packets : ℚ) / duration, bytes / duration⟩

/-! ### Claim theorems for the flow table -/

/-- C7: the periodic sweep keeps exactly the flows whose `last_seen` is not
more than the idle timeout (10 minutes) before the sweep time; a flow whose
`last_seen` is within the timeout of the sweep time (or not yet set) is never
removed. -/
theorem sweep_removes_exactly_idle (flows : List (String × CaptureFlow)) (now : ℚ)
    (p : String × CaptureFlow) :
    p ∈ cleanupOldFlows now flows ↔
      p ∈ flows ∧ ¬∃ t, p.2.lastSeen = some t ∧ idleTimeout < now - t := by
  unfold cleanupOldFlows
  rw [List.mem_filter]
  constructor
  · rintro ⟨hmem, hkeep⟩
    refine ⟨hmem, ?_⟩
    rintro ⟨t, ht, hgt⟩
    unfold flowExpired at hkeep
    rw [ht] at hkeep
    simp only [Bool.not_eq_true', decide_eq_false_iff_not, not_lt] at hkeep
    linarith
  · rintro ⟨hmem, hnot⟩
    refine ⟨hmem, ?_⟩
    unfold flowExpired
    cases ht : p.2.lastSeen with
    | none => rfl
    | some t =>
        simp only [Bool.not_eq_true', decide_eq_false_iff_not, not_lt]
        by_contra hlt
        push_neg at hlt
        exact hnot ⟨t, ht, by linarith⟩

/-- C7 witness: at sweep time 601 a flow last seen at 0 (601 s ago) is
removed, and a flow last seen at 1 (600 s ago, exactly the timeout) is
kept. -/
theorem sweep_removes_exactly_idle_witness :
    ("a", (⟨some 0⟩ : CaptureFlow)) ∉ cleanupOldFlows 601 [("a", ⟨some 0⟩)] ∧
    ("b", (⟨some 1⟩ : CaptureFlow)) ∈ cleanupOldFlows 601 [("b", ⟨some 1⟩)] := by
  constructor
  · intro hmem
    obtain ⟨-, hno⟩ := (sweep_removes_exactly_idle [("a", ⟨some 0⟩)] 601 _).1 hmem
    exact hno ⟨0, rfl, by norm_num [idleTimeout]⟩
  · refine (sweep_removes_exactly_idle [("b", ⟨some 1⟩)] 601 _).2 ⟨by simp, ?_⟩
    rintro ⟨t, ht, hgt⟩
    simp only [Option.some.injEq] at ht
    rw [← ht] at hgt
    norm_num [idleTimeout] at hgt

/-- C9 counterexample: a flow whose true duration is 0.5 ms keeps 0.5 ms as
the rate divisor — the computed duration is not `max(lastSeen - firstSeen,
1 ms)` and the divisor is below 1 ms. -/
theorem duration_below_epsilon_counterexample :
    pythonDuration 0 (1/2000) = 1/2000 ∧
    pythonDuration 0 (1/2000) < 1/1000 ∧
    max ((1/2000 : ℚ) - 0) (1/1000) = 1/1000 := by
  refine ⟨?_, ?_, ?_⟩
  · unfold pythonDuration
    rw [if_neg (by norm_num)]
    norm_num
  · unfold pythonDuration
    rw [if_neg (by norm_num)]
    norm_num
  · rw [max_eq_right (by norm_num)]

/-- C9 amended: the duration divisor is always strictly positive — it equals
1 ms when `lastSeen - firstSeen ≤ 0` and the true difference otherwise
(possibly below 1 ms) — so the packet and byte rates of a non-empty flow are
always computed with a nonzero divisor. -/
theorem duration_positive_rates_defined (startTime lastSeen : ℚ) (packets : ℕ)
    (bytes : ℚ) (hp : packets ≠ 0) :
    0 < pythonDuration startTime lastSeen ∧
    (lastSeen - startTime ≤ 0 → pythonDuration startTime lastSeen = 1/1000) ∧
    (0 < lastSeen - startTime →
      pythonDuration startTime lastSeen = lastSeen - startTime) ∧
    extractFlowFeatures packets bytes startTime lastSeen =
      some ⟨pythonDuration startTime lastSeen,
            (packets : ℚ) / pythonDuration startTime lastSeen,
            bytes / pythonDuration startTime lastSeen⟩ := by
  refine ⟨?_, ?_, ?_, ?_⟩
  · unfold pythonDuration
    split_ifs with h
    · norm_num
    · push_neg at h
      linarith
  · intro h
    unfold pythonDuration
    rw [if_pos h]
  · intro h
    unfold pythonDuration
    rw [if_neg (not_le.mpr h)]
  · unfold extractFlowFeatures
    rw [if_neg hp]

/-- C9 amended witness: a flow of one 100-byte packet whose `lastSeen`
precedes its `firstSeen` gets duration 1 ms and rates 1000 pps / 100000
Bps. -/
theorem duration_positive_rates_defined_witness :
    pythonDuration 5 3 = 1/1000 ∧
    0 < pythonDuration 5 3 ∧
    extractFlowFeatures 1 100 5 3 = some ⟨1/1000, 1000, 100000⟩ := by
  obtain ⟨hpos, heps, -, hext⟩ :=
    duration_positive_rates_defined 5 3 1 100 (by norm_num)
  have hd : pythonDuration 5 3 = 1/1000 := heps (by norm_num)
  refine ⟨hd, hpos, ?_⟩
  rw [hext, hd]
  norm_num

/-! ### Network slice manager (`model/app/network_slice_manager.py`) -/

/-- `healing_policies['isolation_threshold']`. -/
def isolationThreshold : ℚ := 3

/-- `healing_policies['restoration_delay']` (seconds). -/
def restorationDelay : ℚ := 300

/-- `healing_policies['max_isolation_time']` (seconds). -/
def maxIsolationTime : ℚ := 1800

/-- `healing_policies['threat_decay_rate']`. -/
def threatDecayRate : ℚ := 1/10

/-- `current_status` of a slice: the source only ever assigns `'active'`
and `'isolated'`. -/
inductive SliceStatus
  | active
  | isolated
  deriving DecidableEq, Repr

/-- The per-slice state mutated by the manager. -/
structure SliceInfo where
  currentStatus : SliceStatus
  threatLevel : ℚ
  isolationTime : Option ℚ
  isolatedIps : List String
  deriving DecidableEq, Repr

/-- `isolate_slice`'s state effect: status becomes isolated and
`isolation_time` is stamped with the current time. -/
def isolateSlice (now : ℚ) (s : SliceInfo) : SliceInfo :=
  { s with currentStatus := .isolated, isolationTime := some now }

/-- `restore_slice`'s state effect: status back to active, threat level reset
to 0, isolated-IP set cleared. -/
def restoreSlice (s : SliceInfo) : SliceInfo :=
  { s with currentStatus := .active, threatLevel := 0, isolatedIps := [] }

/-- The decay step at the end of `monitor_slice_health`: a positive threat
level is reduced by the decay rate, floored at 0.  The source applies it
whatever the slice's status, isolated included. -/
def decayThreat (s : SliceInfo) : SliceInfo :=
  if 0 < s.threatLevel then
    { s with threatLevel := max 0 (s.threatLevel - threatDecayRate) }
  else s

/-- One `monitor_slice_health` tick: isolate when the threat level reaches
the isolation threshold and the slice is not already isolated, then apply
the decay step. -/
def monitorSliceHealth (now : ℚ) (s : SliceInfo) : SliceInfo :=
  decayThreat
    (if isolationThreshold ≤ s.threatLevel ∧ s.currentStatus ≠ .isolated then
      isolateSlice now s
    else s)

/-- Python's `timedelta.seconds` attribute on a non-negative timedelta: the
whole seconds of the elapsed time, modulo one day. -/
def pySeconds (elapsed : ℚ) : ℤ := ⌊elapsed⌋ % 86400

/-- The outcome of one scheduled `schedule_restoration_check` firing. -/
inductive RestorationOutcome
  | restore
  | reschedule
  deriving DecidableEq, Repr

/-- The decision taken when a `schedule_restoration_check` fires, given the
slice's status, its threat level, and the time elapsed since
`isolation_time`: restore when the slice is isolated with threat level
below 1; otherwise force a restore once the elapsed time (as
`timedelta.seconds`) exceeds the maximum isolation time; otherwise schedule
another check one restoration delay later. -/
def restorationDecision (status : SliceStatus) (threat : ℚ) (elapsed : ℚ) :
    RestorationOutcome :=
  if status = .isolated ∧ threat < 1 then .restore
  else if maxIsolationTime < (pySeconds elapsed : ℚ) then .restore
  else .reschedule

/-- The elapsed time at the k-th scheduled check after isolation: checks
fire every `restoration_delay` seconds while each one reschedules. -/
def checkTime (k : ℕ) : ℚ := restorationDelay * k

/-- Whether a slice that stays isolated survives the first `k` scheduled
checks with every one of them rescheduling, for a given threat-level
trajectory `τ` (threat level observed at the k-th check). -/
def heldIsolatedThrough (τ : ℕ → ℚ) : ℕ → Bool
  | 0 => true
  | k + 1 =>
      heldIsolatedThrough τ k &&
        (restorationDecision .isolated (τ (k + 1)) (checkTime (k + 1)) == .reschedule)

/-! ### Claim theorems for the slice manager -/

/-- C4: restoration checks fire within the isolation ceiling (the first one
after 300 s ≤ 1800 s, and six of them by 1800 s), and at the first check
whose elapsed isolation time exceeds `max_isolation_time` — check 7, at
2100 s — the decision is to restore whatever the threat level, so a slice
cannot stay isolated through check 7 for any threat trajectory. -/
theorem isolation_ceiling_forces_restoration (τ : ℕ → ℚ) :
    checkTime 1 ≤ maxIsolationTime ∧
    checkTime 6 ≤ maxIsolationTime ∧
    maxIsolationTime < checkTime 7 ∧
    restorationDecision .isolated (τ 7) (checkTime 7) = .restore ∧
    heldIsolatedThrough τ 7 = false := by
  have hdec : restorationDecision .isolated (τ 7) (checkTime 7) = .restore := by
    unfold restorationDecision
    by_cases h : τ 7 < 1
    · rw [if_pos ⟨rfl, h⟩]
    · rw [if_neg (by simp [h]), if_pos]
      show maxIsolationTime < ((pySeconds (checkTime 7) : ℤ) : ℚ)
      have h7 : checkTime 7 = 2100 := by norm_num [checkTime, restorationDelay]
      rw [h7]
      have hfloor : pySeconds 2100 = 2100 := by
        unfold pySeconds
        norm_num
      rw [hfloor]
      norm_num [maxIsolationTime]
  refine ⟨by norm_num [checkTime, restorationDelay, maxIsolationTime],
          by norm_num [checkTime, restorationDelay, maxIsolationTime],
          by norm_num [checkTime, restorationDelay, maxIsolationTime],
          hdec, ?_⟩
  show heldIsolatedThrough τ (6 + 1) = false
  unfold heldIsolatedThrough
  rw [hdec]
  simp

/-- C5 counterexample: an isolated slice with threat level 1.5 — below the
claimed restore threshold of 2 — is not restored by the scheduled check 300 s
after isolation; the check reschedules instead, because the source compares
the threat level against 1, not 2. -/
theorem restore_threshold_counterexample :
    restorationDecision .isolated (3/2) (checkTime 1) = .reschedule ∧
    (3/2 : ℚ) < 2 := by
  constructor
  · unfold restorationDecision
    rw [if_neg (by norm_num), if_neg]
    rw [not_lt]
    have h1 : checkTime 1 = 300 := by norm_num [checkTime, restorationDelay]
    rw [h1]
    have hfloor : pySeconds 300 = 300 := by
      unfold pySeconds
      norm_num
    rw [hfloor]
    norm_num [maxIsolationTime]
  · norm_num

/-- C5 amended: the check that fires 300 s after isolation restores exactly
when the slice is still isolated with threat level below 1 (not 2), or when
the elapsed isolation time exceeds `max_isolation_time`; otherwise it
reschedules.  Restoration resets the threat level to 0, clears the isolated
IPs and sets the status back to active. -/
theorem restoration_check_characterization (threat elapsed : ℚ) (s : SliceInfo) :
    (restorationDecision .isolated threat elapsed = .restore ↔
      threat < 1 ∨ maxIsolationTime < (pySeconds elapsed : ℚ)) ∧
    (restoreSlice s).currentStatus = .active ∧
    (restoreSlice s).threatLevel = 0 ∧
    (restoreSlice s).isolatedIps = [] := by
  refine ⟨?_, rfl, rfl, rfl⟩
  unfold restorationDecision
  split_ifs with h1 h2
  · simp [h1.2]
  · simp [h2]
  · have hth : ¬threat < 1 := fun hc => h1 ⟨rfl, hc⟩
    simp [hth, h2]

/-- C5 amended witness: an isolated slice with threat level 0.5 is restored
by the delayed check, and restoration zeroes the threat level. -/
theorem restoration_check_characterization_witness :
    restorationDecision .isolated (1/2) 300 = .restore ∧
    (restoreSlice ⟨.isolated, 5, some 0, ["10.0.0.1"]⟩).threatLevel = 0 := by
  obtain ⟨hiff, -, hth, -⟩ :=
    restoration_check_characterization (1/2) 300 ⟨.isolated, 5, some 0, ["10.0.0.1"]⟩
  exact ⟨hiff.2 (Or.inl (by norm_num)), hth⟩

/-- C8 counterexample: an isolated slice with threat level 2 is decayed to
1.9 by the monitoring tick — decay is applied while ISOLATED, contrary to the
claim that no decay happens in that status. -/
theorem decay_applied_while_isolated :
    (monitorSliceHealth 0 ⟨.isolated, 2, some 0, []⟩).threatLevel = 19/10 ∧
    (19/10 : ℚ) ≠ 2 := by
  constructor
  · norm_num [monitorSliceHealth, decayThreat, isolateSlice, isolationThreshold,
      threatDecayRate, max_def]
  · norm_num

/-- C8 amended: each monitoring tick decays a positive threat level by the
decay rate, floored at 0, regardless of the slice's status (isolated
included); a non-negative threat level stays non-negative, and the tick's
only status change is isolation when the threat level reaches the isolation
threshold on a not-yet-isolated slice. -/
theorem tick_decays_unconditionally_nonneg (now : ℚ) (s : SliceInfo)
    (h : 0 ≤ s.threatLevel) :
    (monitorSliceHealth now s).threatLevel =
      (if 0 < s.threatLevel then max 0 (s.threatLevel - threatDecayRate)
        else s.threatLevel) ∧
    0 ≤ (monitorSliceHealth now s).threatLevel ∧
    (monitorSliceHealth now s).currentStatus =
      (if isolationThreshold ≤ s.threatLevel ∧ s.currentStatus ≠ .isolated
        then .isolated else s.currentStatus) := by
  simp only [monitorSliceHealth, decayThreat, isolateSlice]
  split_ifs with hiso hpos hpos
  · exact ⟨rfl, le_max_left _ _, rfl⟩
  · exact ⟨rfl, h, rfl⟩
  · exact ⟨rfl, le_max_left _ _, rfl⟩
  · exact ⟨rfl, h, rfl⟩

/-- C8 amended witness: a healthy slice at threat level 1 is decayed to 0.9
and stays non-negative. -/
theorem tick_decays_unconditionally_nonneg_witness :
    (monitorSliceHealth 0 ⟨.active, 1, none, []⟩).threatLevel = 9/10 ∧
    0 ≤ (monitorSliceHealth 0 ⟨.active, 1, none, []⟩).threatLevel := by
  obtain ⟨heq, hnn, -⟩ :=
    tick_decays_unconditionally_nonneg 0 ⟨.active, 1, none, []⟩ (by norm_num)
  refine ⟨?_, hnn⟩
  rw [heq, if_pos (by norm_num)]
  show max 0 (1 - threatDecayRate : ℚ) = 9/10
  rw [max_eq_right (by norm_num [threatDecayRate])]
  norm_num [threatDecayRate]

/-! ### ML detection engine (`model/app/ml_detection.py`) -/

/-- `get_model_weight`: the fixed ensemble weight table, defaulting to 0.1
for an unknown model name. -/
def getModelWeight (name : String) : ℚ :=
  if name = "random_forest" then 1/5
  else if name = "gradient_boosting" then 9/50
  else if name = "xgboost" then 17/100
  else if name = "lightgbm" then 3/20
  else if name = "svm" then 3/25
  else if name = "logistic_regression" then 1/10
  else if name = "knn" then 1/20
  else if name = "lstm" then 3/100
  else 1/10

/-- A sub-model's output inside `detect_ddos`'s prediction loop: the model
name, whether it voted `'ddos'`, and its confidence. -/
structure ModelOutput where
  name : String
  predDdos : Bool
  confidence : ℚ
  deriving DecidableEq, Repr

/-- The weighted score a sub-model contributes to `prediction_scores`:
`confidence * weight` for a ddos vote, `(1 - confidence) * weight * (-1)`
otherwise. -/
def modelScore (m : ModelOutput) : ℚ :=
  if m.predDdos then m.confidence * getModelWeight m.name
  else (1 - m.confidence) * getModelWeight m.name * (-1)

/-- The flow features read by `enhanced_ensemble_decision`'s heuristics. -/
structure FlowFeatures where
  packetsPerSecond : ℚ
  bytesPerSecond : ℚ
  stdPacketSize : ℚ
  uniqueDstPorts : ℚ
  deriving DecidableEq, Repr

/-- A flow with every heuristic feature at zero. -/
def quietFlow : FlowFeatures := ⟨0, 0, 0, 0⟩

/-- The additive flow-based heuristic boosts of
`enhanced_ensemble_decision`. -/
def flowThreatScore (f : FlowFeatures) : ℚ :=
  (if 1000 < f.packetsPerSecond then 3/10 else 0) +
  (if 1000000 < f.bytesPerSecond then 3/10 else 0) +
  (if 500 < f.stdPacketSize then 1/5 else 0) +
  (if 10 < f.uniqueDstPorts then 1/5 else 0)

/-- `np.mean` guarded by the source's emptiness check: 0 on an empty score
list, the arithmetic mean otherwise. -/
def pyMean (l : List ℚ) : ℚ :=
  if l = [] then 0 else l.sum / l.length

/-- `consensus_ratio = ddos_count / total_models if total_models > 0 else
0`. -/
def consensusRatio (ddosCount totalModels : ℕ) : ℚ :=
  if totalModels = 0 then 0 else (ddosCount : ℚ) / totalModels

/-- `final_score = (ensemble_score + flow_threat_score) / 2`. -/
def finalScore (scores : List ℚ) (f : FlowFeatures) : ℚ :=
  (pyMean scores + flowThreatScore f) / 2

/-- The (label, confidence, threat level) triple produced by the detection
engine. -/
structure EnsembleVerdict where
  prediction : String
  confidence : ℚ
  threatLevel : String
  deriving DecidableEq, Repr

/-- `enhanced_ensemble_decision`'s final decision logic: attack when the
final score exceeds 0.7 or the consensus ratio exceeds 0.6; suspicious when
the final score exceeds 0.4 or the consensus ratio exceeds 0.3; normal
otherwise, with the confidences the source computes from
`max(final_score, consensus_ratio)`. -/
def enhancedEnsembleDecision (ddosCount totalModels : ℕ) (scores : List ℚ)
    (f : FlowFeatures) : EnsembleVerdict :=
  if 7/10 < finalScore scores f ∨ 3/5 < consensusRatio ddosCount totalModels then
    ⟨"ddos", min (19/20) (max (finalScore scores f) (consensusRatio ddosCount totalModels)),
     "HIGH"⟩
  else if 2/5 < finalScore scores f ∨ 3/10 < consensusRatio ddosCount totalModels then
    ⟨"suspicious", max (finalScore scores f) (consensusRatio ddosCount totalModels),
     "MEDIUM"⟩
  else
    ⟨"normal", 1 - max (finalScore scores f) (consensusRatio ddosCount totalModels),
     "LOW"⟩

/-- `create_default_response`'s verdict fields: label `'unknown'`,
confidence 0, threat level `'UNKNOWN'`. -/
def defaultResponse : EnsembleVerdict := ⟨"unknown", 0, "UNKNOWN"⟩

/-- The environment of one `detect_ddos` call: whether preprocessing
succeeded, the outputs of the available sub-models (distinct names, as they
come from the engine's model dict), and whether the isolation forest
contributed an entry to `model_predictions` (its entry is labelled
`'anomaly'`/`'normal'`, never `'ddos'`, and contributes no prediction
score). -/
structure DetectInput where
  preprocessOk : Bool
  modelOutputs : List ModelOutput
  isolationForestPresent : Bool
  flow : FlowFeatures

/-- `detect_ddos`: default response when preprocessing fails, otherwise the
ensemble decision over the sub-model scores, the ddos vote count, and the
total entries of `model_predictions`. -/
def detectDdos (inp : DetectInput) : EnsembleVerdict :=
  if !inp.preprocessOk then defaultResponse
  else
    enhancedEnsembleDecision
      ((inp.modelOutputs.filter (·.predDdos)).length)
      (inp.modelOutputs.length + (if inp.isolationForestPresent then 1 else 0))
      (inp.modelOutputs.map modelScore)
      inp.flow

/-- The verdict mapping exactly as claim C6 states it: a function of the
combined score alone — attack above 0.7 with confidence `min(0.95, s)`,
suspicious above 0.4 with confidence `s`, normal otherwise with confidence
`1 - s`. -/
def claimedEnsembleMapping (s : ℚ) : EnsembleVerdict :=
  if 7/10 < s then ⟨"ddos", min (19/20) s, "HIGH"⟩
  else if 2/5 < s then ⟨"suspicious", s, "MEDIUM"⟩
  else ⟨"normal", 1 - s, "LOW"⟩

/-- The decision mapping as amended: a function of the final score and the
consensus ratio together, with the disjunctive thresholds and
`max`-combined confidence of the source. -/
def amendedEnsembleMapping (fs cr : ℚ) : EnsembleVerdict :=
  if 7/10 < fs ∨ 3/5 < cr then ⟨"ddos", min (19/20) (max fs cr), "HIGH"⟩
  else if 2/5 < fs ∨ 3/10 < cr then ⟨"suspicious", max fs cr, "MEDIUM"⟩
  else ⟨"normal", 1 - max fs cr, "LOW"⟩

/-! #### Bounds lemmas for the ensemble -/

theorem getModelWeight_bounds (name : String) :
    0 ≤ getModelWeight name ∧ getModelWeight name ≤ 1/5 := by
  unfold getModelWeight
  split_ifs <;> norm_num

theorem modelScore_bounds (m : ModelOutput) (h0 : 0 ≤ m.confidence)
    (h1 : m.confidence ≤ 1) : -(1/5) ≤ modelScore m ∧ modelScore m ≤ 1/5 := by
  obtain ⟨hw0, hw1⟩ := getModelWeight_bounds m.name
  unfold modelScore
  split_ifs
  · constructor <;> nlinarith
  · constructor <;> nlinarith

theorem pyMean_bounds (l : List ℚ) (a b : ℚ) (ha : a ≤ 0) (hb : 0 ≤ b)
    (h : ∀ x ∈ l, a ≤ x ∧ x ≤ b) : a ≤ pyMean l ∧ pyMean l ≤ b := by
  unfold pyMean
  split_ifs with hl
  · exact ⟨ha, hb⟩
  · have hlen : 0 < (l.length : ℚ) := by
      have : l.length ≠ 0 := fun hc => hl (List.length_eq_zero.mp hc)
      positivity
    have hub : l.sum ≤ (l.length : ℚ) * b := by
      calc l.sum ≤ l.length • b := List.sum_le_card_nsmul l b (fun x hx => (h x hx).2)
      _ = (l.length : ℚ) * b := by rw [nsmul_eq_mul]
    have hlb : (l.length : ℚ) * a ≤ l.sum := by
      calc (l.length : ℚ) * a = l.length • a := by rw [nsmul_eq_mul]
      _ ≤ l.sum := List.card_nsmul_le_sum l a (fun x hx => (h x hx).1)
    constructor
    · rw [le_div_iff₀ hlen]
      linarith
    · rw [div_le_iff₀ hlen]
      linarith

theorem flowThreatScore_bounds (f : FlowFeatures) :
    0 ≤ flowThreatScore f ∧ flowThreatScore f ≤ 1 := by
  unfold flowThreatScore
  split_ifs <;> norm_num

theorem consensusRatio_bounds (ddosCount totalModels : ℕ)
    (h : ddosCount ≤ totalModels) :
    0 ≤ consensusRatio ddosCount totalModels ∧
    consensusRatio ddosCount totalModels ≤ 1 := by
  unfold consensusRatio
  split_ifs with ht
  · norm_num
  · have htot : 0 < (totalModels : ℚ) := by
      have : 0 < totalModels := Nat.pos_of_ne_zero ht
      exact_mod_cast this
    constructor
    · positivity
    · rw [div_le_one htot]
      exact_mod_cast h

theorem finalScore_bounds (scores : List ℚ) (f : FlowFeatures)
    (h : ∀ x ∈ scores, -(1/5) ≤ x ∧ x ≤ 1/5) :
    -(1/10) ≤ finalScore scores f ∧ finalScore scores f ≤ 3/5 := by
  obtain ⟨hm0, hm1⟩ := pyMean_bounds scores (-(1/5)) (1/5) (by norm_num) (by norm_num) h
  obtain ⟨hf0, hf1⟩ := flowThreatScore_bounds f
  unfold finalScore
  constructor <;> linarith

theorem ensembleVerdict_valid (ddosCount totalModels : ℕ) (scores : List ℚ)
    (f : FlowFeatures) (hdc : ddosCount ≤ totalModels)
    (hs : ∀ x ∈ scores, -(1/5) ≤ x ∧ x ≤ 1/5) :
    0 ≤ (enhancedEnsembleDecision ddosCount totalModels scores f).confidence ∧
    (enhancedEnsembleDecision ddosCount totalModels scores f).confidence ≤ 1 ∧
    (enhancedEnsembleDecision ddosCount totalModels scores f).prediction ∈
      (["normal", "suspicious", "ddos"] : List String) := by
  obtain ⟨hfs0, hfs1⟩ := finalScore_bounds scores f hs
  obtain ⟨hcr0, hcr1⟩ := consensusRatio_bounds ddosCount totalModels hdc
  unfold enhancedEnsembleDecision
  split_ifs with h1 h2
  · refine ⟨le_min (by norm_num) ?_, min_le_of_left_le (by norm_num), by simp⟩
    rcases h1 with h1 | h1
    · exact le_max_of_le_left (by linarith)
    · exact le_max_of_le_right (by linarith)
  · exact ⟨le_max_of_le_right hcr0, max_le (by linarith) hcr1, by simp⟩
  · refine ⟨?_, ?_, by simp⟩
    · have : max (finalScore scores f) (consensusRatio ddosCount totalModels) ≤ 1 :=
        max_le (by linarith) hcr1
      dsimp only
      linarith
    · have : 0 ≤ max (finalScore scores f) (consensusRatio ddosCount totalModels) :=
        le_max_of_le_right hcr0
      dsimp only
      linarith

/-! ### Claim theorems for the detection engine -/

/-- C2 counterexample: when preprocessing fails, `detect_ddos` returns the
default response with label `'unknown'` and threat level `'UNKNOWN'` — a
label outside the defined set {normal, suspicious, attack}. -/
theorem unknown_label_on_preprocessing_failure :
    (detectDdos ⟨false, [], false, quietFlow⟩).prediction = "unknown" ∧
    (detectDdos ⟨false, [], false, quietFlow⟩).threatLevel = "UNKNOWN" ∧
    "unknown" ∉ (["normal", "suspicious", "attack"] : List String) := by
  refine ⟨rfl, rfl, by decide⟩

/-- C2 amended: whenever every available sub-model reports a confidence in
[0,1], `detect_ddos` returns (without raising) a verdict whose confidence is
in [0,1] and whose label is `normal`, `suspicious` or `ddos` (the source's
name for the attack label) on success, and exactly the default `unknown`
label when preprocessing fails. -/
theorem detect_always_valid_verdict (inp : DetectInput)
    (h : ∀ m ∈ inp.modelOutputs, 0 ≤ m.confidence ∧ m.confidence ≤ 1) :
    0 ≤ (detectDdos inp).confidence ∧
    (detectDdos inp).confidence ≤ 1 ∧
    ((detectDdos inp).prediction = "unknown" ↔ inp.preprocessOk = false) ∧
    (detectDdos inp).prediction ∈
      (["normal", "suspicious", "ddos", "unknown"] : List String) := by
  unfold detectDdos
  cases hpre : inp.preprocessOk with
  | false => exact ⟨le_refl 0, by norm_num [defaultResponse], by simp [defaultResponse], by simp [defaultResponse]⟩
  | true =>
      simp only [Bool.not_true, if_neg (by simp : ¬(false = true))]
      have hdc : (inp.modelOutputs.filter (·.predDdos)).length ≤
          inp.modelOutputs.length + (if inp.isolationForestPresent then 1 else 0) :=
        le_trans (List.length_filter_le _ _) (Nat.le_add_right _ _)
      have hs : ∀ x ∈ inp.modelOutputs.map modelScore, -(1/5) ≤ x ∧ x ≤ 1/5 := by
        intro x hx
        obtain ⟨m, hm, hmx⟩ := List.mem_map.mp hx
        obtain ⟨h0, h1⟩ := h m hm
        rw [← hmx]
        exact modelScore_bounds m h0 h1
      obtain ⟨hc0, hc1, hmem⟩ := ensembleVerdict_valid _ _ _ inp.flow hdc hs
      refine ⟨hc0, hc1, ?_, ?_⟩
      · constructor
        · intro hu
          simp only [List.mem_cons] at hmem
          rcases hmem with hb | hb | hb | hb <;> simp_all
        · intro hfalse
          exact absurd hfalse (by simp)
      · simp only [List.mem_cons] at hmem ⊢
        tauto

/-- C2 amended witness: one random-forest ddos vote at confidence 0.5 with
the isolation forest present yields a valid in-range verdict with a
non-`unknown` label. -/
theorem detect_always_valid_verdict_witness :
    0 ≤ (detectDdos ⟨true, [⟨"random_forest", true, 1/2⟩], true, quietFlow⟩).confidence ∧
    (detectDdos ⟨true, [⟨"random_forest", true, 1/2⟩], true, quietFlow⟩).confidence ≤ 1 ∧
    ((detectDdos ⟨true, [⟨"random_forest", true, 1/2⟩], true, quietFlow⟩).prediction =
        "unknown" ↔ False) := by
  obtain ⟨h0, h1, hiff, -⟩ :=
    detect_always_valid_verdict ⟨true, [⟨"random_forest", true, 1/2⟩], true, quietFlow⟩
      (by rintro m hm; simp only [List.mem_singleton] at hm; subst hm; norm_num)
  refine ⟨h0, h1, ?_⟩
  rw [hiff]
  simp

/-- C6 counterexample: with two of three sub-models voting ddos but an empty
score list over a quiet flow, the combined score is 0 (≤ 0.4), yet the
source's decision is attack/HIGH with confidence 2/3 because the consensus
ratio 2/3 exceeds 0.6 — the claimed mapping of the combined score alone
would label it normal with confidence 1. -/
theorem consensus_overrides_combined_score :
    finalScore [] quietFlow = 0 ∧
    enhancedEnsembleDecision 2 3 [] quietFlow = ⟨"ddos", 2/3, "HIGH"⟩ ∧
    claimedEnsembleMapping (finalScore [] quietFlow) = ⟨"normal", 1, "LOW"⟩ := by
  have hfs : finalScore [] quietFlow = 0 := by
    norm_num [finalScore, pyMean, flowThreatScore, quietFlow]
  have hcr : consensusRatio 2 3 = 2/3 := by
    norm_num [consensusRatio]
  refine ⟨hfs, ?_, ?_⟩
  · unfold enhancedEnsembleDecision
    rw [hfs, hcr]
    rw [if_pos (by norm_num)]
    congr 1
    rw [max_eq_right (by norm_num)]
    rw [min_eq_right (by norm_num)]
  · unfold claimedEnsembleMapping
    rw [hfs]
    rw [if_neg (by norm_num), if_neg (by norm_num)]
    norm_num

/-- C6 amended: the decision is a function of the final score together with
the consensus ratio — attack/HIGH when the final score exceeds 0.7 or the
consensus ratio exceeds 0.6, with confidence `min(0.95, max(score, ratio))`;
suspicious/MEDIUM when the final score exceeds 0.4 or the ratio exceeds 0.3,
with confidence `max(score, ratio)`; otherwise normal/LOW with confidence
`1 - max(score, ratio)`. -/
theorem ensemble_decision_refines_amended_mapping (ddosCount totalModels : ℕ)
    (scores : List ℚ) (f : FlowFeatures) :
    enhancedEnsembleDecision ddosCount totalModels scores f =
      amendedEnsembleMapping (finalScore scores f)
        (consensusRatio ddosCount totalModels) := by
  unfold enhancedEnsembleDecision amendedEnsembleMapping
  rfl

end SentinelAi
